import Mathlib

/-!
# Verification of the semantic indexing and retrieval core

Shallow embedding of `src/chroma_indexer.py` (note normalizer, ID derivation,
index/search/stats operations) and `src/rag_formatter.py` (RAG context
formatter), together with proofs of the specified properties.

Python dictionaries, strings, numbers and lists are modelled by the `PyVal`
type; Python floats are modelled as exact rationals.  Raising code is modelled
in the `Except Unit` monad; the external collaborators (embedding model,
ChromaDB collection) are oracle functions supplied through an environment
record, and the concrete list-based collection `chromaEnv` models ChromaDB's
get/add/update semantics.
-/

set_option maxHeartbeats 1000000

/-- A Python value: `None`, `str`, `int`, `float` (modelled as an exact
rational), `list`, or `dict` with string keys. -/
inductive PyVal where
  | none
  | str (s : String)
  | int (n : Int)
  | rat (q : Rat)
  | list (xs : List PyVal)
  | dict (kvs : List (String × PyVal))
  deriving Repr

namespace PyVal

/-- Structural equality test for Python values. -/
def beq : PyVal → PyVal → Bool
  | .none, .none => true
  | .str a, .str b => a == b
  | .int a, .int b => a == b
  | .rat a, .rat b => a == b
  | .list [], .list [] => true
  | .list (x :: xs), .list (y :: ys) => beq x y && beq (.list xs) (.list ys)
  | .dict [], .dict [] => true
  | .dict ((k, v) :: xs), .dict ((k', v') :: ys) =>
      k == k' && beq v v' && beq (.dict xs) (.dict ys)
  | _, _ => false

theorem beq_iff : ∀ a b : PyVal, beq a b = true ↔ a = b
  | .none, b => by cases b <;> simp [beq]
  | .str _, b => by cases b <;> simp [beq]
  | .int _, b => by cases b <;> simp [beq]
  | .rat _, b => by cases b <;> simp [beq]
  | .list [], b => by
      cases b with
      | list ys => cases ys <;> simp [beq]
      | _ => simp [beq]
  | .list (x :: xs), b => by
      cases b with
      | list ys =>
          cases ys with
          | nil => simp [beq]
          | cons y ys =>
              have h1 := beq_iff x y
              have h2 := beq_iff (.list xs) (.list ys)
              simp [beq, Bool.and_eq_true, h1, h2] at *
      | _ => simp [beq]
  | .dict [], b => by
      cases b with
      | dict ys => cases ys <;> simp [beq]
      | _ => simp [beq]
  | .dict ((k, v) :: xs), b => by
      cases b with
      | dict ys =>
          cases ys with
          | nil => simp [beq]
          | cons kv ys =>
              have h1 := beq_iff v kv.2
              have h2 := beq_iff (.dict xs) (.dict ys)
              cases kv
              simp [beq, Bool.and_eq_true, h1, h2] at *
      | _ => simp [beq]
termination_by a _ => sizeOf a

instance : DecidableEq PyVal := fun a b =>
  decidable_of_iff (beq a b = true) (beq_iff a b)

/-- Python truthiness: `None`, `""`, `0`, `0.0`, `[]`, and the empty dict are
falsy; everything else is truthy. -/
def truthy : PyVal → Bool
  | .none => false
  | .str s => !s.isEmpty
  | .int n => n != 0
  | .rat q => q != 0
  | .list xs => !xs.isEmpty
  | .dict kvs => !kvs.isEmpty

/-- `isinstance(v, list)`. -/
def isList : PyVal → Bool
  | .list _ => true
  | _ => false

/-- The element list of a Python list (and `[]` for any other value). -/
def asList : PyVal → List PyVal
  | .list xs => xs
  | _ => []

/-- Dictionary lookup, distinguishing a missing key from a stored `None`. -/
def lookup (d : PyVal) (k : String) : Option PyVal :=
  match d with
  | .dict kvs => (kvs.find? (fun kv => kv.1 == k)).map (fun kv => kv.2)
  | _ => Option.none

/-- `d.get(k)` on a value known to be a dict: `None` when the key is missing. -/
def get (d : PyVal) (k : String) : PyVal :=
  (d.lookup k).getD .none

/-- `d.get(k, default)` on a value known to be a dict. -/
def getD (d : PyVal) (k : String) (dflt : PyVal) : PyVal :=
  (d.lookup k).getD dflt

end PyVal

/-- `v.get(k, default)` on an arbitrary value: raises `AttributeError` when the
receiver is not a dict. -/
def pyDictGetD (v : PyVal) (k : String) (dflt : PyVal) : Except Unit PyVal :=
  match v with
  | .dict kvs => .ok (PyVal.getD (.dict kvs) k dflt)
  | _ => .error ()

/-- `v.get(k)` on an arbitrary value: raises when the receiver is not a dict. -/
def pyDictGet (v : PyVal) (k : String) : Except Unit PyVal :=
  pyDictGetD v k .none

/-- `len(v)`: defined for strings, lists and dicts; raises otherwise. -/
def pyLen : PyVal → Except Unit Nat
  | .str s => .ok s.length
  | .list xs => .ok xs.length
  | .dict kvs => .ok kvs.length
  | _ => .error ()

/-- `iter(v)`: a string yields its characters, a dict its keys; numbers and
`None` raise `TypeError`. -/
def pyIter : PyVal → Except Unit (List PyVal)
  | .str s => .ok (s.toList.map (fun c => .str (String.singleton c)))
  | .list xs => .ok xs
  | .dict kvs => .ok (kvs.map (fun kv => .str kv.1))
  | _ => .error ()

/-- The set of characters stripped by Python's `str.strip()` (ASCII
whitespace, the C1 separators, and the Unicode space code points). -/
def isPySpace (c : Char) : Bool :=
  let n := c.toNat
  n = 32 || (9 ≤ n && n ≤ 13) || (28 ≤ n && n ≤ 31) || n = 133 || n = 160 ||
  n = 5760 || (8192 ≤ n && n ≤ 8202) || n = 8232 || n = 8233 || n = 8239 ||
  n = 8287 || n = 12288

/-- `str.strip()` on a character list. -/
def pyStripList (l : List Char) : List Char :=
  ((l.dropWhile isPySpace).reverse.dropWhile isPySpace).reverse

/-- Python `s.strip()`. -/
def pyStrip (s : String) : String :=
  String.mk (pyStripList s.data)

/-- `sep.join(xs)` on a Python list of values: succeeds only when every
element is a string (`TypeError` otherwise). -/
def joinStrs (sep : String) : List PyVal → Except Unit String
  | [] => .ok ""
  | [.str s] => .ok s
  | .str s :: x :: xs => (joinStrs sep (x :: xs)).map (fun r => s ++ sep ++ r)
  | _ => .error ()

/-- Space/comma-separated join of plain Lean strings (total counterpart of
`sep.join` on a list of `str`s). -/
def joinSep (sep : String) : List String → String
  | [] => ""
  | [s] => s
  | s :: x :: xs => s ++ sep ++ joinSep sep (x :: xs)

/-- `sep.join(v)` on an arbitrary Python value: iterates the value and
requires every element to be a string. -/
def pyJoin (sep : String) (v : PyVal) : Except Unit String :=
  match pyIter v with
  | .error e => .error e
  | .ok xs => joinStrs sep xs

mutual

/-- `repr(v)` for the values that can appear in a note; containers render in
Python's `repr` style. -/
def pyRepr : PyVal → String
  | .none => "None"
  | .str s => "'" ++ s ++ "'"
  | .int n => toString n
  | .rat q => toString q
  | .list xs => "[" ++ joinSep ", " (pyReprElems xs) ++ "]"
  | .dict kvs => "\x7b" ++ joinSep ", " (pyReprItems kvs) ++ "\x7d"

/-- The repr of each element of a Python list. -/
def pyReprElems : List PyVal → List String
  | [] => []
  | x :: xs => pyRepr x :: pyReprElems xs

/-- The repr of each `key: value` item of a Python dict. -/
def pyReprItems : List (String × PyVal) → List String
  | [] => []
  | (k, v) :: xs => ("'" ++ k ++ "': " ++ pyRepr v) :: pyReprItems xs

end

/-- `str(v)`: strings render verbatim, everything else as its repr. -/
def pyStr : PyVal → String
  | .str s => s
  | v => pyRepr v

/-! ## SHA-256 (FIPS 180-4), over `Nat` with explicit reduction mod 2^32

`hashlib.sha256(content.encode('utf-8')).hexdigest()` from the ID-derivation
step is modelled by `sha256hexOfString`. -/

/-- UTF-8 encoding of one code point, as byte values. -/
def utf8Char (c : Char) : List Nat :=
  let n := c.toNat
  if n < 128 then [n]
  else if n < 2048 then [192 + n / 64, 128 + n % 64]
  else if n < 65536 then [224 + n / 4096, 128 + n / 64 % 64, 128 + n % 64]
  else [240 + n / 262144, 128 + n / 4096 % 64, 128 + n / 64 % 64, 128 + n % 64]

/-- `s.encode('utf-8')` as a list of byte values. -/
def utf8Encode (s : String) : List Nat :=
  (s.data.map utf8Char).flatten

/-- Reduction to a 32-bit word. -/
def w32 (n : Nat) : Nat := n % 4294967296

/-- Right rotation of a 32-bit word. -/
def rotr32 (x n : Nat) : Nat := w32 ((x >>> n) ||| (x <<< (32 - n)))

/-- SHA-256 `Ch`. -/
def shaCh (x y z : Nat) : Nat := (x &&& y) ^^^ ((x ^^^ 4294967295) &&& z)

/-- SHA-256 `Maj`. -/
def shaMaj (x y z : Nat) : Nat := (x &&& y) ^^^ (x &&& z) ^^^ (y &&& z)

/-- SHA-256 `Σ₀`. -/
def shaS0 (x : Nat) : Nat := rotr32 x 2 ^^^ rotr32 x 13 ^^^ rotr32 x 22

/-- SHA-256 `Σ₁`. -/
def shaS1 (x : Nat) : Nat := rotr32 x 6 ^^^ rotr32 x 11 ^^^ rotr32 x 25

/-- SHA-256 `σ₀`. -/
def shas0 (x : Nat) : Nat := rotr32 x 7 ^^^ rotr32 x 18 ^^^ (x >>> 3)

/-- SHA-256 `σ₁`. -/
def shas1 (x : Nat) : Nat := rotr32 x 17 ^^^ rotr32 x 19 ^^^ (x >>> 10)

/-- The 64 SHA-256 round constants (FIPS 180-4 table, in decimal). -/
def shaK : List Nat :=
  [1116352408, 1899447441, 3049323471, 3921009573, 961987163,
   1508970993, 2453635748, 2870763221, 3624381080, 310598401,
   607225278, 1426881987, 1925078388, 2162078206, 2614888103,
   3248222580, 3835390401, 4022224774, 264347078, 604807628,
   770255983, 1249150122, 1555081692, 1996064986, 2554220882,
   2821834349, 2952996808, 3210313671, 3336571891, 3584528711,
   113926993, 338241895, 666307205, 773529912, 1294757372,
   1396182291, 1695183700, 1986661051, 2177026350, 2456956037,
   2730485921, 2820302411, 3259730800, 3345764771, 3516065817,
   3600352804, 4094571909, 275423344, 430227734, 506948616,
   659060556, 883997877, 958139571, 1322822218, 1537002063,
   1747873779, 1955562222, 2024104815, 2227730452, 2361852424,
   2428436474, 2756734187, 3204031479, 3329325298]

/-- The SHA-256 initial hash value (FIPS 180-4, in decimal). -/
def shaH0 : List Nat :=
  [1779033703, 3144134277, 1013904242, 2773480762,
   1359893119, 2600822924, 528734635, 1541459225]

/-- Big-endian 8-byte encoding of a (length) value. -/
def be64 (n : Nat) : List Nat :=
  [(n >>> 56) &&& 255, (n >>> 48) &&& 255, (n >>> 40) &&& 255,
   (n >>> 32) &&& 255, (n >>> 24) &&& 255, (n >>> 16) &&& 255,
   (n >>> 8) &&& 255, n &&& 255]

/-- SHA-256 message padding: `0x80`, zeros to 56 mod 64, 64-bit bit length. -/
def shaPad (msg : List Nat) : List Nat :=
  msg ++ [128] ++ List.replicate ((119 - msg.length % 64) % 64) 0 ++
    be64 (msg.length * 8)

/-- Big-endian packing of bytes into 32-bit words. -/
def bytesToWords : List Nat → List Nat
  | b0 :: b1 :: b2 :: b3 :: rest =>
      (b0 * 16777216 + b1 * 65536 + b2 * 256 + b3) :: bytesToWords rest
  | _ => []

/-- Split a word list into 16-word blocks. -/
def toBlocks (ws : List Nat) : List (List Nat) :=
  if ws = [] then []
  else ws.take 16 :: toBlocks (ws.drop 16)
termination_by ws.length
decreasing_by
  have : ws ≠ [] := by assumption
  have : 0 < ws.length := List.length_pos.mpr this
  simp [List.length_drop]
  omega

/-- Extend a 16-word block by `k` schedule words. -/
def shaExtend (w : Array Nat) : Nat → Array Nat
  | 0 => w
  | k + 1 =>
      let w := shaExtend w k
      let i := w.size
      w.push (w32 (shas1 (w.getD (i - 2) 0) + w.getD (i - 7) 0 +
                   shas0 (w.getD (i - 15) 0) + w.getD (i - 16) 0))

/-- The eight working variables of the compression loop. -/
structure ShaState where
  a : Nat
  b : Nat
  c : Nat
  d : Nat
  e : Nat
  f : Nat
  g : Nat
  h : Nat

/-- One round of the SHA-256 compression function. -/
def shaRound (st : ShaState) (kw : Nat × Nat) : ShaState :=
  let t1 := w32 (st.h + shaS1 st.e + shaCh st.e st.f st.g + kw.1 + kw.2)
  let t2 := w32 (shaS0 st.a + shaMaj st.a st.b st.c)
  ⟨w32 (t1 + t2), st.a, st.b, st.c, w32 (st.d + t1), st.e, st.f, st.g⟩

/-- Compress one 16-word block into the running hash. -/
def shaCompress (hv : List Nat) (block : List Nat) : List Nat :=
  let w := shaExtend (block.toArray) 48
  let init : ShaState :=
    ⟨hv.getD 0 0, hv.getD 1 0, hv.getD 2 0, hv.getD 3 0,
     hv.getD 4 0, hv.getD 5 0, hv.getD 6 0, hv.getD 7 0⟩
  let st := (shaK.zip w.toList).foldl shaRound init
  [w32 (hv.getD 0 0 + st.a), w32 (hv.getD 1 0 + st.b),
   w32 (hv.getD 2 0 + st.c), w32 (hv.getD 3 0 + st.d),
   w32 (hv.getD 4 0 + st.e), w32 (hv.getD 5 0 + st.f),
   w32 (hv.getD 6 0 + st.g), w32 (hv.getD 7 0 + st.h)]

/-- The SHA-256 digest of a byte list, as eight 32-bit words. -/
def sha256Words (msg : List Nat) : List Nat :=
  (toBlocks (bytesToWords (shaPad msg))).foldl shaCompress shaH0

/-- A lowercase hex digit. -/
def hexDigit (n : Nat) : Char :=
  if n < 10 then Char.ofNat (48 + n) else Char.ofNat (87 + n)

/-- Eight lowercase hex digits of a 32-bit word. -/
def hex8 (w : Nat) : String :=
  String.mk ((List.range 8).map (fun i => hexDigit ((w >>> ((7 - i) * 4)) % 16)))

/-- `hashlib.sha256(bytes).hexdigest()`. -/
def sha256hex (msg : List Nat) : String :=
  String.join ((sha256Words msg).map hex8)

/-- `hashlib.sha256(s.encode('utf-8')).hexdigest()`. -/
def sha256hexOfString (s : String) : String :=
  sha256hex (utf8Encode s)

/-! ## `ChromaIndexer._extract_content_for_embedding` -/

/-- The title part: `if json_data.get("title"): "Título: ..."`. -/
def titleSection (d : PyVal) : List String :=
  if (d.get "title").truthy then ["Título: " ++ pyStr (d.get "title")] else []

/-- The summary part: `if json_data.get("summary"): "Resumo: ..."`. -/
def summarySection (d : PyVal) : List String :=
  if (d.get "summary").truthy then ["Resumo: " ++ pyStr (d.get "summary")] else []

/-- The notes part: guarded by truthiness and `isinstance(..., list)`, joined
with spaces, kept when the joined text is non-blank. -/
def notesSection (d : PyVal) : Except Unit (List String) :=
  let v := d.get "notes"
  if v.truthy && v.isList then
    match pyJoin " " v with
    | .error e => .error e
    | .ok s => .ok (if pyStrip s = "" then [] else ["Notas: " ++ s])
  else .ok []

/-- The reminders part, built exactly like the notes part. -/
def remindersSection (d : PyVal) : Except Unit (List String) :=
  let v := d.get "reminders"
  if v.truthy && v.isList then
    match pyJoin " " v with
    | .error e => .error e
    | .ok s => .ok (if pyStrip s = "" then [] else ["Lembretes: " ++ s])
  else .ok []

/-- The loop collecting `task["task"]` for every dict task with truthy text. -/
def collectTaskTexts : List PyVal → List PyVal
  | [] => []
  | .dict kvs :: rest =>
      if (PyVal.get (.dict kvs) "task").truthy then
        PyVal.get (.dict kvs) "task" :: collectTaskTexts rest
      else collectTaskTexts rest
  | _ :: rest => collectTaskTexts rest

/-- The tasks part: only task texts, statuses excluded; skipped when no task
contributes text. -/
def tasksSection (d : PyVal) : Except Unit (List String) :=
  let v := d.get "tasks"
  if v.truthy && v.isList then
    let texts := collectTaskTexts v.asList
    if texts.isEmpty then .ok []
    else
      match joinStrs " " texts with
      | .error e => .error e
      | .ok s => .ok ["Tarefas: " ++ s]
  else .ok []

/-- The keywords part, built exactly like the notes part. -/
def keywordsSection (d : PyVal) : Except Unit (List String) :=
  let v := d.get "keywords"
  if v.truthy && v.isList then
    match pyJoin " " v with
    | .error e => .error e
    | .ok s => .ok (if pyStrip s = "" then [] else ["Palavras-chave: " ++ s])
  else .ok []

/-- `ChromaIndexer._extract_content_for_embedding`: the non-empty sections in
fixed order, joined with `" | "`. -/
def extract_content_for_embedding (d : PyVal) : Except Unit String := do
  let pn ← notesSection d
  let pr ← remindersSection d
  let pt ← tasksSection d
  let pk ← keywordsSection d
  pure (joinSep " | " (titleSection d ++ summarySection d ++ pn ++ pr ++ pt ++ pk))

/-! ## `ChromaIndexer._prepare_metadata` -/

/-- `len([t for t in tasks if t.get("status") == status])`: iterates the
value and calls `.get` on each element (raising on non-dict elements). -/
def statusCount (v : PyVal) (st : String) : Except Unit Nat := do
  let xs ← pyIter v
  let bs ← xs.mapM (fun t =>
    match t with
    | .dict kvs =>
        Except.ok (match PyVal.get (.dict kvs) "status" with
                   | .str s => s == st
                   | _ => false)
    | _ => (Except.error () : Except Unit Bool))
  pure (bs.count true)

/-- The `if json_data.get("keywords"):` block of `_prepare_metadata`. -/
def kwStep (d : PyVal) (m1 : List (String × PyVal)) :
    Except Unit (List (String × PyVal)) :=
  if (d.get "keywords").truthy then
    match pyJoin ", " (d.get "keywords") with
    | .error e => .error e
    | .ok s => .ok (m1 ++ [("keywords", PyVal.str s)])
  else .ok m1

/-- The `if tasks:` block of `_prepare_metadata`: total, done and todo
counts, appended only when the tasks value is truthy. -/
def taskStep (d : PyVal) (m2 : List (String × PyVal)) :
    Except Unit (List (String × PyVal)) :=
  let tasks := d.getD "tasks" (.list [])
  if tasks.truthy then
    match pyLen tasks with
    | .error e => .error e
    | .ok total =>
        match statusCount tasks "done" with
        | .error e => .error e
        | .ok dn =>
            match statusCount tasks "todo" with
            | .error e => .error e
            | .ok td =>
                .ok (m2 ++ [("total_tasks", PyVal.int total),
                            ("done_tasks", PyVal.int dn),
                            ("todo_tasks", PyVal.int td)])
  else .ok m2

/-- The always-present `notes_count`/`reminders_count` entries. -/
def countStep (d : PyVal) (m3 : List (String × PyVal)) :
    Except Unit (List (String × PyVal)) :=
  match pyLen (d.getD "notes" (.list [])) with
  | .error e => .error e
  | .ok nc =>
      match pyLen (d.getD "reminders" (.list [])) with
      | .error e => .error e
      | .ok rc =>
          .ok (m3 ++ [("notes_count", PyVal.int nc),
                      ("reminders_count", PyVal.int rc)])

/-- The identity-hint passthrough entries. -/
def idStep (d : PyVal) (m4 : List (String × PyVal)) : List (String × PyVal) :=
  let m5 :=
    if (d.get "source_id").truthy then m4 ++ [("source_id", d.get "source_id")]
    else m4
  if (d.get "vector_id").truthy then m5 ++ [("vector_id", d.get "vector_id")]
  else m5

/-- `ChromaIndexer._prepare_metadata`, with the wall-clock timestamp passed in
as `now`: the base entries, then the keyword, task-count, list-count and
identity-hint steps in source order, aborting at the first raising step. -/
def prepare_metadata (now : String) (d : PyVal) :
    Except Unit (List (String × PyVal)) :=
  match kwStep d [("title", d.getD "title" (.str "")),
                  ("summary", d.getD "summary" (.str "")),
                  ("data", d.getD "data" (.str "")),
                  ("indexed_at", PyVal.str now)] with
  | .error e => .error e
  | .ok m2 =>
      match taskStep d m2 with
      | .error e => .error e
      | .ok m3 =>
          match countStep d m3 with
          | .error e => .error e
          | .ok m4 => .ok (idStep d m4)

/-! ## `ChromaIndexer._generate_unique_id` -/

/-- `ChromaIndexer._generate_unique_id`: `vector_id` if truthy, else
`source_id` if truthy, else the truncated SHA-256 of the embeddable text. -/
def generate_unique_id (d : PyVal) : Except Unit PyVal :=
  if (d.get "vector_id").truthy then .ok (d.get "vector_id")
  else if (d.get "source_id").truthy then .ok (d.get "source_id")
  else
    match extract_content_for_embedding d with
    | .error e => .error e
    | .ok content => .ok (.str ((sha256hexOfString content).take 16))

/-! ## The indexer's public operations, over collaborator oracles -/

/-- One nearest-neighbour response from the collection store (the inner,
per-query lists of ChromaDB's `query` result). -/
structure QueryResponse where
  ids : List PyVal
  documents : List PyVal
  metadatas : List PyVal
  distances : List Rat

/-- The collaborators of `ChromaIndexer`: the embedding model and the
persistent collection, each call modelled as a fallible oracle. -/
structure IndexerEnv (E S : Type) where
  embed : String → Except Unit E
  now : String
  storeGet : S → PyVal → Except Unit (List PyVal)
  storeAdd : S → PyVal → E → List (String × PyVal) → String → Except Unit S
  storeUpdate : S → PyVal → E → List (String × PyVal) → String → Except Unit S
  storeQuery : S → E → Nat → Except Unit QueryResponse
  storeCount : S → Except String Nat
  collection_name : String
  persist_directory : String

/-- The body of `ChromaIndexer.index_note` inside its `try`: derive the id,
probe the collection (swallowing probe failures), reject blank content,
embed, build metadata, then update or add. -/
def indexNoteBody {E S : Type} (env : IndexerEnv E S) (s : S) (d : PyVal) :
    Except Unit (Bool × S) := do
  let uid ← generate_unique_id d
  let existing : Option (List PyVal) :=
    match env.storeGet s uid with
    | .ok ids => some ids
    | .error _ => Option.none
  let content ← extract_content_for_embedding d
  if pyStrip content = "" then
    pure (false, s)
  else do
    let embedding ← env.embed content
    let metadata ← prepare_metadata env.now d
    match existing with
    | some ids =>
        if ids.isEmpty then
          (env.storeAdd s uid embedding metadata content).map (fun s2 => (true, s2))
        else
          (env.storeUpdate s uid embedding metadata content).map (fun s2 => (true, s2))
    | Option.none =>
        (env.storeAdd s uid embedding metadata content).map (fun s2 => (true, s2))

/-- `ChromaIndexer.index_note`: the body with its boundary `except` returning
`False` (and, the store operations being atomic, the store unchanged). -/
def index_note {E S : Type} (env : IndexerEnv E S) (s : S) (d : PyVal) : Bool × S :=
  match indexNoteBody env s d with
  | .ok r => r
  | .error _ => (false, s)

/-- The `for i, doc_id in enumerate(...)` loop of `search_similar_notes`:
index `i` threads through; indexing a too-short parallel list raises; each
item carries `similarity = 1 - distance`. -/
def searchLoop (res : QueryResponse) : Nat → List PyVal → Except Unit (List PyVal)
  | _, [] => .ok []
  | i, idv :: rest =>
      match res.documents.get? i with
      | Option.none => .error ()
      | some docv =>
          match res.metadatas.get? i with
          | Option.none => .error ()
          | some mdv =>
              match res.distances.get? i with
              | Option.none => .error ()
              | some dist =>
                  match searchLoop res (i + 1) rest with
                  | .error e => .error e
                  | .ok tail =>
                      .ok (.dict [("id", idv), ("document", docv),
                                  ("metadata", mdv),
                                  ("similarity", .rat (1 - dist))] :: tail)

/-- The body of `ChromaIndexer.search_similar_notes` inside its `try`. -/
def searchBody {E S : Type} (env : IndexerEnv E S) (s : S) (query : String)
    (n_results : Nat) : Except Unit (List PyVal) := do
  let qe ← env.embed query
  let res ← env.storeQuery s qe n_results
  searchLoop res 0 res.ids

/-- `ChromaIndexer.search_similar_notes`: the body with its boundary `except`
returning the empty list. -/
def search_similar_notes {E S : Type} (env : IndexerEnv E S) (s : S)
    (query : String) (n_results : Nat) : List PyVal :=
  match searchBody env s query n_results with
  | .ok r => r
  | .error _ => []

/-- `ChromaIndexer.get_collection_stats`: the stats mapping, or an `error`
mapping when the count fails. -/
def get_collection_stats {E S : Type} (env : IndexerEnv E S) (s : S) :
    List (String × PyVal) :=
  match env.storeCount s with
  | .ok c =>
      [("total_notes", PyVal.int c),
       ("collection_name", PyVal.str env.collection_name),
       ("persist_directory", PyVal.str env.persist_directory)]
  | .error msg => [("error", PyVal.str msg)]

/-! ## A concrete, well-behaved collection store

`chromaEnv` instantiates the oracles with a list-backed collection whose
get/add/update have ChromaDB's documented semantics. -/

/-- One `(id, embedding, metadata, document)` record of the collection. -/
structure ChromaRecord (E : Type) where
  rid : PyVal
  emb : E
  meta : List (String × PyVal)
  doc : String
  deriving DecidableEq

/-- `collection.get(ids=[id])["ids"]`: the ids of the matching records. -/
def chromaGet {E : Type} (recs : List (ChromaRecord E)) (id : PyVal) : List PyVal :=
  (recs.filter (fun r => r.rid = id)).map (fun r => r.rid)

/-- `collection.add`: appends a fresh record. -/
def chromaAdd {E : Type} (recs : List (ChromaRecord E)) (id : PyVal) (e : E)
    (m : List (String × PyVal)) (doc : String) : List (ChromaRecord E) :=
  recs ++ [⟨id, e, m, doc⟩]

/-- `collection.update`: replaces embedding, metadata and document of the
records with the given id, in place. -/
def chromaUpdate {E : Type} (recs : List (ChromaRecord E)) (id : PyVal) (e : E)
    (m : List (String × PyVal)) (doc : String) : List (ChromaRecord E) :=
  recs.map (fun r => if r.rid = id then ⟨id, e, m, doc⟩ else r)

/-- The indexer wired to a working embedding function and the list-backed
collection. -/
def chromaEnv {E : Type} (embedf : String → Except Unit E) (now : String) :
    IndexerEnv E (List (ChromaRecord E)) where
  embed := embedf
  now := now
  storeGet := fun s id => .ok (chromaGet s id)
  storeAdd := fun s id e m doc => .ok (chromaAdd s id e m doc)
  storeUpdate := fun s id e m doc => .ok (chromaUpdate s id e m doc)
  storeQuery := fun _ _ _ => .error ()
  storeCount := fun s => .ok s.length
  collection_name := "handwritten_notes"
  persist_directory := "./chroma_db"

/-! ## `rag_formatter.format_for_rag` -/

/-- Two-digit zero-padded decimal. -/
def pad2 (n : Nat) : String :=
  if n < 10 then "0" ++ toString n else toString n

/-- `format(num/den, '.2f')`: round half to even at two decimals, by integer
arithmetic on the reduced fraction. -/
def formatFixed2Core (num : Int) (den : Nat) : String :=
  let neg := num < 0
  let a : Int := if neg then -num else num
  let d : Int := den
  let n := a * 100
  let quot := n / d
  let rem := n % d
  let c := if 2 * rem > d then quot + 1
           else if 2 * rem < d then quot
           else if 2 ∣ quot then quot else quot + 1
  let cn := c.toNat
  (if neg then "-" else "") ++ toString (cn / 100) ++ "." ++ pad2 (cn % 100)

/-- `f"{q:.2f}"` for an exact rational value. -/
def formatFixed2Rat (q : Rat) : String :=
  formatFixed2Core q.num q.den

/-- `f"{v:.2f}"`: defined for numbers, raising for any other value. -/
def pyFormatFixed2 : PyVal → Except Unit String
  | .int n => .ok (formatFixed2Core n 1)
  | .rat q => .ok (formatFixed2Rat q)
  | _ => .error ()

/-- The `try` body of one iteration of the `format_for_rag` loop: render the
`--- NOTA i ---` block for one search result. -/
def renderBlock (i : Nat) (result : PyVal) : Except Unit String := do
  let metadata ← pyDictGetD result "metadata" (.dict [])
  let similarity ← pyDictGetD result "similarity" (.rat 0)
  let title ← pyDictGetD metadata "title" (.str "Sem título")
  let summary ← pyDictGetD metadata "summary" (.str "")
  let date ← pyDictGetD metadata "data" (.str "")
  let s0 := "\n--- NOTA " ++ toString i ++ " ---"
  let s1 := if title.truthy then s0 ++ "\nTítulo: " ++ pyStr title else s0
  let s2 := if date.truthy then s1 ++ "\nData: " ++ pyStr date else s1
  let s3 := if summary.truthy then s2 ++ "\nResumo: " ++ pyStr summary else s2
  let document ← pyDictGetD result "document" (.str "")
  let s4 := if document.truthy then s3 ++ "\nConteúdo: " ++ pyStr document else s3
  let rel ← pyFormatFixed2 similarity
  pure (s4 ++ "\nRelevância: " ++ rel ++ "\n")

/-- The `format_for_rag` loop: skip blocks that raise, stop at the first block
that would push the running character total past the budget. -/
def fmtLoop (maxChars : Nat) : List PyVal → Nat → Nat → List String → List String
  | [], _, _, parts => parts
  | r :: rest, i, total, parts =>
      match renderBlock i r with
      | .error _ => fmtLoop maxChars rest (i + 1) total parts
      | .ok b =>
          if total + b.length > maxChars then parts
          else fmtLoop maxChars rest (i + 1) (total + b.length) (parts ++ [b])

/-- `rag_formatter.format_for_rag`. -/
def format_for_rag (results : List PyVal) (max_tokens : Nat) : String :=
  if results.isEmpty then "Nenhuma nota relevante encontrada."
  else
    let parts := fmtLoop (max_tokens * 4) results 1 0 []
    if parts.isEmpty then "Erro ao processar as notas encontradas."
    else
      "=== CONTEXTO DAS SUAS ANOTAÇÕES ===\n" ++
      "Total de notas relevantes: " ++ toString parts.length ++ "\n" ++
      String.join parts ++ "\n=== FIM DO CONTEXTO ==="

/-! ## The Note Schema, and the specification-side contracts

`Note` is the §3 Note Schema: every content field present and well-typed, the
two identity hints optional.  `Note.toPyVal` is its JSON form.  The
`...Spec` functions below transcribe the spec's §4.1/§4.3 contracts; the
refinement theorems relate them to the code model above. -/

/-- A task of the Note Schema. -/
structure NoteTask where
  task : String
  status : String
  deriving DecidableEq, Repr

/-- The §3 Note Schema. -/
structure Note where
  title : String
  data : String
  summary : String
  keywords : List String
  tasks : List NoteTask
  notes : List String
  reminders : List String
  source_id : Option String
  vector_id : Option String
  deriving DecidableEq, Repr

/-- The JSON form of a task. -/
def NoteTask.toPyVal (t : NoteTask) : PyVal :=
  .dict [("task", .str t.task), ("status", .str t.status)]

/-- The JSON form of a schema-conforming note: all content fields present,
identity hints present exactly when set. -/
def Note.toPyVal (n : Note) : PyVal :=
  .dict ([("title", .str n.title), ("data", .str n.data),
          ("summary", .str n.summary),
          ("keywords", .list (n.keywords.map PyVal.str)),
          ("tasks", .list (n.tasks.map NoteTask.toPyVal)),
          ("notes", .list (n.notes.map PyVal.str)),
          ("reminders", .list (n.reminders.map PyVal.str))] ++
         (match n.source_id with
          | some s => [("source_id", PyVal.str s)]
          | Option.none => []) ++
         (match n.vector_id with
          | some s => [("vector_id", PyVal.str s)]
          | Option.none => []))

/-- Spec §4.1: the embeddable text is the `" | "`-join, in fixed order, of the
non-empty sections `"<Label>: <content>"`. -/
def extractEmbeddableTextSpec (n : Note) : String :=
  joinSep " | "
    ((if n.title ≠ "" then ["Título: " ++ n.title] else []) ++
     (if n.summary ≠ "" then ["Resumo: " ++ n.summary] else []) ++
     (if n.notes.any (fun x => pyStrip x ≠ "") then
        ["Notas: " ++ joinSep " " n.notes] else []) ++
     (if n.reminders.any (fun x => pyStrip x ≠ "") then
        ["Lembretes: " ++ joinSep " " n.reminders] else []) ++
     (if (n.tasks.map NoteTask.task).filter (fun t => t ≠ "") ≠ [] then
        ["Tarefas: " ++ joinSep " " ((n.tasks.map NoteTask.task).filter (fun t => t ≠ ""))]
      else []) ++
     (if n.keywords.any (fun x => pyStrip x ≠ "") then
        ["Palavras-chave: " ++ joinSep " " n.keywords] else []))

/-- Spec §4.3: `derive_id`, first match wins — `vector_id` if present and
non-empty, else `source_id` if present and non-empty, else the SHA-256 hash of
the embeddable text truncated to 16 hex characters. -/
def deriveIdSpec (n : Note) : String :=
  match n.vector_id with
  | some v =>
      if v ≠ "" then v
      else
        match n.source_id with
        | some sid => if sid ≠ "" then sid else (sha256hexOfString (extractEmbeddableTextSpec n)).take 16
        | Option.none => (sha256hexOfString (extractEmbeddableTextSpec n)).take 16
  | Option.none =>
      match n.source_id with
      | some sid => if sid ≠ "" then sid else (sha256hexOfString (extractEmbeddableTextSpec n)).take 16
      | Option.none => (sha256hexOfString (extractEmbeddableTextSpec n)).take 16

/-- Spec §4.1: the metadata record of a schema-conforming note. -/
def buildMetadataSpec (now : String) (n : Note) : List (String × PyVal) :=
  [("title", .str n.title), ("summary", .str n.summary), ("data", .str n.data),
   ("indexed_at", .str now)] ++
  (if n.keywords ≠ [] then [("keywords", .str (joinSep ", " n.keywords))] else []) ++
  (if n.tasks ≠ [] then
     [("total_tasks", PyVal.int n.tasks.length),
      ("done_tasks", PyVal.int (n.tasks.filter (fun t => t.status = "done")).length),
      ("todo_tasks", PyVal.int (n.tasks.filter (fun t => t.status = "todo")).length)]
   else []) ++
  [("notes_count", PyVal.int n.notes.length),
   ("reminders_count", PyVal.int n.reminders.length)] ++
  (match n.source_id with
   | some s => if s ≠ "" then [("source_id", PyVal.str s)] else []
   | Option.none => []) ++
  (match n.vector_id with
   | some s => if s ≠ "" then [("vector_id", PyVal.str s)] else []
   | Option.none => [])

/-! ## Monad and string helper lemmas -/

theorem except_bind_ok {ε α β : Type} (a : α) (f : α → Except ε β) :
    (Except.ok a : Except ε α) >>= f = f a := rfl

theorem except_bind_error {ε α β : Type} (e : ε) (f : α → Except ε β) :
    (Except.error e : Except ε α) >>= f = Except.error e := rfl

theorem except_map_ok {ε α β : Type} (a : α) (f : α → β) :
    (Except.ok a : Except ε α).map f = Except.ok (f a) := rfl

theorem except_map_error {ε α β : Type} (e : ε) (f : α → β) :
    (Except.error e : Except ε α).map f = Except.error e := rfl

theorem except_pure {ε α : Type} (a : α) :
    (pure a : Except ε α) = Except.ok a := rfl

theorem string_mk_eq_empty_iff (l : List Char) : String.mk l = "" ↔ l = [] := by
  constructor
  · intro h
    exact congrArg String.data h
  · intro h
    rw [h]

theorem pyStripList_eq_nil_iff (l : List Char) :
    pyStripList l = [] ↔ ∀ c ∈ l, isPySpace c := by
  unfold pyStripList
  rw [List.reverse_eq_nil_iff, List.dropWhile_eq_nil_iff]
  constructor
  · intro h c hc
    have hsplit := List.takeWhile_append_dropWhile (p := isPySpace) (l := l)
    rw [← hsplit] at hc
    rcases List.mem_append.mp hc with h1 | h1
    · exact List.mem_takeWhile_imp h1
    · exact h c (List.mem_reverse.mpr h1)
  · intro h c hc
    have : c ∈ l.dropWhile isPySpace := List.mem_reverse.mp hc
    exact h c ((List.dropWhile_sublist (p := isPySpace)).subset this)

theorem pyStrip_eq_empty_iff (s : String) :
    pyStrip s = "" ↔ ∀ c ∈ s.data, isPySpace c := by
  rw [pyStrip, string_mk_eq_empty_iff, pyStripList_eq_nil_iff]

theorem pyStrip_ne_empty (s : String) (c : Char) (hc : c ∈ s.data)
    (hw : isPySpace c = false) : pyStrip s ≠ "" := by
  intro h
  have := (pyStrip_eq_empty_iff s).mp h c hc
  rw [hw] at this
  exact Bool.false_ne_true this

theorem joinSep_space_all : ∀ xs : List String,
    (∀ c ∈ (joinSep " " xs).data, isPySpace c) ↔
      (∀ x ∈ xs, ∀ c ∈ x.data, isPySpace c)
  | [] => by
      simp [joinSep, show ("" : String).data = [] from rfl]
  | [x] => by
      simp [joinSep]
  | x :: y :: ys => by
      have ih := joinSep_space_all (y :: ys)
      simp only [joinSep, String.data_append, List.mem_append, List.mem_cons] at *
      constructor
      · intro h
        intro z hz
        rcases hz with hz | hz
        · subst hz
          intro c hc
          exact h c (Or.inl (Or.inl hc))
        · intro c hc
          exact ih.mp (fun c hc => h c (Or.inr hc)) z hz c hc
      · intro h c hc
        rcases hc with (hc | hc) | hc
        · exact h x (Or.inl rfl) c hc
        · rcases hc with hc | hc
          · subst hc
            decide
          · simp at hc
        · exact ih.mpr (fun z hz => h z (Or.inr hz)) c hc

theorem joinSep_space_blank_iff (xs : List String) :
    pyStrip (joinSep " " xs) = "" ↔ ∀ x ∈ xs, pyStrip x = "" := by
  simp only [pyStrip_eq_empty_iff]
  exact joinSep_space_all xs

/-! ## The JSON form of a schema note, field by field -/

@[simp] theorem toPyVal_get_title (n : Note) : n.toPyVal.get "title" = .str n.title := rfl

@[simp] theorem toPyVal_get_summary (n : Note) : n.toPyVal.get "summary" = .str n.summary := rfl

@[simp] theorem toPyVal_get_data (n : Note) : n.toPyVal.get "data" = .str n.data := rfl

@[simp] theorem toPyVal_get_keywords (n : Note) :
    n.toPyVal.get "keywords" = .list (n.keywords.map PyVal.str) := rfl

@[simp] theorem toPyVal_get_tasks (n : Note) :
    n.toPyVal.get "tasks" = .list (n.tasks.map NoteTask.toPyVal) := rfl

@[simp] theorem toPyVal_get_notes (n : Note) :
    n.toPyVal.get "notes" = .list (n.notes.map PyVal.str) := rfl

@[simp] theorem toPyVal_get_reminders (n : Note) :
    n.toPyVal.get "reminders" = .list (n.reminders.map PyVal.str) := rfl

@[simp] theorem toPyVal_getD_title (n : Note) :
    n.toPyVal.getD "title" (.str "") = .str n.title := rfl

@[simp] theorem toPyVal_getD_summary (n : Note) :
    n.toPyVal.getD "summary" (.str "") = .str n.summary := rfl

@[simp] theorem toPyVal_getD_data (n : Note) :
    n.toPyVal.getD "data" (.str "") = .str n.data := rfl

@[simp] theorem toPyVal_getD_tasks (n : Note) :
    n.toPyVal.getD "tasks" (.list []) = .list (n.tasks.map NoteTask.toPyVal) := rfl

@[simp] theorem toPyVal_getD_notes (n : Note) :
    n.toPyVal.getD "notes" (.list []) = .list (n.notes.map PyVal.str) := rfl

@[simp] theorem toPyVal_getD_reminders (n : Note) :
    n.toPyVal.getD "reminders" (.list []) = .list (n.reminders.map PyVal.str) := rfl

theorem toPyVal_get_source_id (n : Note) :
    n.toPyVal.get "source_id" =
      (match n.source_id with | some s => .str s | Option.none => .none) := by
  rcases n with ⟨t, d, su, k, ts, no, re, si, vi⟩
  cases si <;> cases vi <;> rfl

theorem toPyVal_get_vector_id (n : Note) :
    n.toPyVal.get "vector_id" =
      (match n.vector_id with | some s => .str s | Option.none => .none) := by
  rcases n with ⟨t, d, su, k, ts, no, re, si, vi⟩
  cases si <;> cases vi <;> rfl

@[simp] theorem pyStr_str (s : String) : pyStr (.str s) = s := rfl

@[simp] theorem isEmpty_empty_string : ("" : String).isEmpty = true := rfl

@[simp] theorem string_isEmpty_false_iff (s : String) :
    s.isEmpty = false ↔ ¬ s = "" := by
  constructor
  · intro h hs
    subst hs
    simp at h
  · intro h
    cases hh : s.isEmpty
    · rfl
    · exact absurd ((String.isEmpty_iff s).mp hh) h

@[simp] theorem truthy_str (s : String) : PyVal.truthy (.str s) = !s.isEmpty := rfl

/-! ## Refinement of the normalizer sections on schema notes -/

theorem joinStrs_map_str (sep : String) : ∀ xs : List String,
    joinStrs sep (xs.map PyVal.str) = .ok (joinSep sep xs)
  | [] => rfl
  | [_] => rfl
  | x :: y :: ys => by
      have ih := joinStrs_map_str sep (y :: ys)
      simp only [List.map_cons] at *
      rw [joinStrs, joinSep, ih]
      rfl

theorem titleSection_toPyVal (n : Note) :
    titleSection n.toPyVal =
      (if n.title ≠ "" then ["Título: " ++ n.title] else []) := by
  unfold titleSection
  by_cases h : n.title = "" <;>
    simp [h, String.isEmpty_iff]

theorem summarySection_toPyVal (n : Note) :
    summarySection n.toPyVal =
      (if n.summary ≠ "" then ["Resumo: " ++ n.summary] else []) := by
  unfold summarySection
  by_cases h : n.summary = "" <;>
    simp [h, String.isEmpty_iff]

theorem notesSection_toPyVal (n : Note) :
    notesSection n.toPyVal =
      .ok (if n.notes.any (fun x => pyStrip x ≠ "") then
             ["Notas: " ++ joinSep " " n.notes] else []) := by
  unfold notesSection
  rw [toPyVal_get_notes]
  cases hn : n.notes with
  | nil => simp [PyVal.truthy, PyVal.isList]
  | cons a as =>
      have hj : pyJoin " " (.list ((a :: as).map PyVal.str)) =
          .ok (joinSep " " (a :: as)) :=
        joinStrs_map_str " " (a :: as)
      simp only [PyVal.truthy, PyVal.isList, List.map_cons, List.isEmpty_cons,
        Bool.not_false, Bool.and_self, if_true, ← List.map_cons]
      rw [hj]
      by_cases hb : (a :: as).any (fun x => pyStrip x ≠ "")
      · have hns : ¬ (pyStrip (joinSep " " (a :: as)) = "") := by
          rw [joinSep_space_blank_iff]
          simp only [List.any_eq_true, decide_eq_true_eq] at hb
          rcases hb with ⟨x, hx, hxx⟩
          exact fun hall => hxx (hall x hx)
        simp only [hns, if_false, if_pos hb]
        simp
      · have hbl : pyStrip (joinSep " " (a :: as)) = "" := by
          rw [joinSep_space_blank_iff]
          intro x hx
          by_contra hxx
          exact hb (List.any_eq_true.mpr ⟨x, hx, by simpa using hxx⟩)
        simp only [hbl, if_true, if_neg hb]
        simp

theorem remindersSection_toPyVal (n : Note) :
    remindersSection n.toPyVal =
      .ok (if n.reminders.any (fun x => pyStrip x ≠ "") then
             ["Lembretes: " ++ joinSep " " n.reminders] else []) := by
  unfold remindersSection
  rw [toPyVal_get_reminders]
  cases hn : n.reminders with
  | nil => simp [PyVal.truthy, PyVal.isList]
  | cons a as =>
      have hj : pyJoin " " (.list ((a :: as).map PyVal.str)) =
          .ok (joinSep " " (a :: as)) :=
        joinStrs_map_str " " (a :: as)
      simp only [PyVal.truthy, PyVal.isList, List.map_cons, List.isEmpty_cons,
        Bool.not_false, Bool.and_self, if_true, ← List.map_cons]
      rw [hj]
      by_cases hb : (a :: as).any (fun x => pyStrip x ≠ "")
      · have hns : ¬ (pyStrip (joinSep " " (a :: as)) = "") := by
          rw [joinSep_space_blank_iff]
          simp only [List.any_eq_true, decide_eq_true_eq] at hb
          rcases hb with ⟨x, hx, hxx⟩
          exact fun hall => hxx (hall x hx)
        simp only [hns, if_false, if_pos hb]
        simp
      · have hbl : pyStrip (joinSep " " (a :: as)) = "" := by
          rw [joinSep_space_blank_iff]
          intro x hx
          by_contra hxx
          exact hb (List.any_eq_true.mpr ⟨x, hx, by simpa using hxx⟩)
        simp only [hbl, if_true, if_neg hb]
        simp

theorem keywordsSection_toPyVal (n : Note) :
    keywordsSection n.toPyVal =
      .ok (if n.keywords.any (fun x => pyStrip x ≠ "") then
             ["Palavras-chave: " ++ joinSep " " n.keywords] else []) := by
  unfold keywordsSection
  rw [toPyVal_get_keywords]
  cases hn : n.keywords with
  | nil => simp [PyVal.truthy, PyVal.isList]
  | cons a as =>
      have hj : pyJoin " " (.list ((a :: as).map PyVal.str)) =
          .ok (joinSep " " (a :: as)) :=
        joinStrs_map_str " " (a :: as)
      simp only [PyVal.truthy, PyVal.isList, List.map_cons, List.isEmpty_cons,
        Bool.not_false, Bool.and_self, if_true, ← List.map_cons]
      rw [hj]
      by_cases hb : (a :: as).any (fun x => pyStrip x ≠ "")
      · have hns : ¬ (pyStrip (joinSep " " (a :: as)) = "") := by
          rw [joinSep_space_blank_iff]
          simp only [List.any_eq_true, decide_eq_true_eq] at hb
          rcases hb with ⟨x, hx, hxx⟩
          exact fun hall => hxx (hall x hx)
        simp only [hns, if_false, if_pos hb]
        simp
      · have hbl : pyStrip (joinSep " " (a :: as)) = "" := by
          rw [joinSep_space_blank_iff]
          intro x hx
          by_contra hxx
          exact hb (List.any_eq_true.mpr ⟨x, hx, by simpa using hxx⟩)
        simp only [hbl, if_true, if_neg hb]
        simp

theorem collectTaskTexts_map (ts : List NoteTask) :
    collectTaskTexts (ts.map NoteTask.toPyVal) =
      ((ts.filter (fun t => t.task ≠ "")).map (fun t => PyVal.str t.task)) := by
  induction ts with
  | nil => rfl
  | cons t ts ih =>
      simp only [List.map_cons, NoteTask.toPyVal, collectTaskTexts]
      by_cases h : t.task = "" <;>
        simp [PyVal.get, PyVal.lookup, PyVal.truthy, h, String.isEmpty_iff, ih,
          List.filter_cons, NoteTask.toPyVal]

theorem tasksSection_toPyVal (n : Note) :
    tasksSection n.toPyVal =
      .ok (if (n.tasks.map NoteTask.task).filter (fun t => t ≠ "") ≠ [] then
             ["Tarefas: " ++
              joinSep " " ((n.tasks.map NoteTask.task).filter (fun t => t ≠ ""))]
           else []) := by
  unfold tasksSection
  rw [toPyVal_get_tasks]
  cases hn : n.tasks with
  | nil => simp [PyVal.truthy, PyVal.isList]
  | cons a as =>
      have hfm : ((a :: as).map NoteTask.task).filter (fun t => t ≠ "") =
          ((a :: as).filter (fun t => t.task ≠ "")).map NoteTask.task :=
        List.filter_map NoteTask.task (a :: as)
      simp only [PyVal.truthy, PyVal.isList, List.map_cons, List.isEmpty_cons,
        Bool.not_false, Bool.and_self, if_true, PyVal.asList, ← List.map_cons]
      rw [collectTaskTexts_map, hfm]
      by_cases hb : (a :: as).filter (fun t => t.task ≠ "") = []
      · rw [hb]
        simp
      · have hmm : ((a :: as).filter (fun t => t.task ≠ "")).map
            (fun t => PyVal.str t.task) =
            (((a :: as).filter (fun t => t.task ≠ "")).map NoteTask.task).map
              PyVal.str := by
          rw [List.map_map]
          rfl
        rw [hmm]
        rw [if_neg (show ¬ ((((a :: as).filter (fun t => t.task ≠ "")).map
              NoteTask.task).map PyVal.str).isEmpty = true by
          simp
          simp at hb
          tauto)]
        rw [joinStrs_map_str]
        rw [if_pos (show ((a :: as).filter (fun t => t.task ≠ "")).map
              NoteTask.task ≠ [] by
          simp
          simp at hb
          tauto)]
        simp

theorem extract_toPyVal (n : Note) :
    extract_content_for_embedding n.toPyVal = .ok (extractEmbeddableTextSpec n) := by
  unfold extract_content_for_embedding extractEmbeddableTextSpec
  rw [notesSection_toPyVal]
  rw [except_bind_ok]
  rw [remindersSection_toPyVal, except_bind_ok]
  rw [tasksSection_toPyVal, except_bind_ok]
  rw [keywordsSection_toPyVal, except_bind_ok]
  rw [titleSection_toPyVal, summarySection_toPyVal]
  rfl

/-! ## Refinement of the metadata builder on schema notes -/

theorem statusCount_map (ts : List NoteTask) (st : String) :
    statusCount (.list (ts.map NoteTask.toPyVal)) st =
      .ok ((ts.filter (fun t => t.status = st)).length) := by
  unfold statusCount
  rw [show pyIter (.list (ts.map NoteTask.toPyVal)) = .ok (ts.map NoteTask.toPyVal)
      from rfl]
  rw [except_bind_ok]
  have hmapM : (ts.map NoteTask.toPyVal).mapM (fun t =>
      match t with
      | .dict kvs =>
          Except.ok (match PyVal.get (.dict kvs) "status" with
                     | .str s => s == st
                     | _ => false)
      | _ => (Except.error () : Except Unit Bool)) =
      .ok (ts.map (fun t => t.status == st)) := by
    induction ts with
    | nil => rfl
    | cons t ts ih =>
        simp only [List.map_cons, List.mapM_cons, ih, NoteTask.toPyVal]
        rfl
  rw [hmapM, except_bind_ok]
  have hcount : ∀ us : List NoteTask,
      (us.map (fun t => t.status == st)).count true =
        (us.filter (fun t => t.status = st)).length := by
    intro us
    induction us with
    | nil => rfl
    | cons u us ih =>
        by_cases h : u.status = st <;>
          simp [List.count_cons, List.filter_cons, h, ih]
  rw [except_pure, hcount]

theorem kwStep_toPyVal (n : Note) (m : List (String × PyVal)) :
    kwStep n.toPyVal m =
      .ok (m ++ (if n.keywords ≠ [] then
                   [("keywords", PyVal.str (joinSep ", " n.keywords))]
                 else [])) := by
  unfold kwStep
  rw [toPyVal_get_keywords]
  cases hk : n.keywords with
  | nil => simp [PyVal.truthy]
  | cons a as =>
      have hj : pyJoin ", " (.list ((a :: as).map PyVal.str)) =
          .ok (joinSep ", " (a :: as)) :=
        joinStrs_map_str ", " (a :: as)
      simp only [PyVal.truthy, List.map_cons, List.isEmpty_cons, Bool.not_false,
        if_true, ← List.map_cons, hj]
      simp

theorem taskStep_toPyVal (n : Note) (m : List (String × PyVal)) :
    taskStep n.toPyVal m =
      .ok (m ++ (if n.tasks ≠ [] then
                   [("total_tasks", PyVal.int n.tasks.length),
                    ("done_tasks",
                     PyVal.int (n.tasks.filter (fun t => t.status = "done")).length),
                    ("todo_tasks",
                     PyVal.int (n.tasks.filter (fun t => t.status = "todo")).length)]
                 else [])) := by
  unfold taskStep
  rw [toPyVal_getD_tasks]
  cases ht : n.tasks with
  | nil => simp [PyVal.truthy]
  | cons a as =>
      dsimp only
      rw [if_pos (show PyVal.truthy (.list ((a :: as).map NoteTask.toPyVal)) = true
            by simp [PyVal.truthy])]
      rw [show pyLen (.list ((a :: as).map NoteTask.toPyVal)) =
            .ok (a :: as).length by simp [pyLen]]
      rw [statusCount_map, statusCount_map]
      simp

theorem countStep_toPyVal (n : Note) (m : List (String × PyVal)) :
    countStep n.toPyVal m =
      .ok (m ++ [("notes_count", PyVal.int n.notes.length),
                 ("reminders_count", PyVal.int n.reminders.length)]) := by
  unfold countStep
  rw [toPyVal_getD_notes, toPyVal_getD_reminders]
  simp [pyLen]

theorem idStep_toPyVal (n : Note) (m : List (String × PyVal)) :
    idStep n.toPyVal m =
      m ++ (match n.source_id with
            | some s => if s ≠ "" then [("source_id", PyVal.str s)] else []
            | Option.none => []) ++
          (match n.vector_id with
           | some s => if s ≠ "" then [("vector_id", PyVal.str s)] else []
           | Option.none => []) := by
  unfold idStep
  rw [toPyVal_get_source_id, toPyVal_get_vector_id]
  cases hs : n.source_id with
  | none =>
      cases hv : n.vector_id with
      | none => simp [PyVal.truthy]
      | some v =>
          by_cases hvv : v = "" <;>
            simp [PyVal.truthy, hvv, String.isEmpty_iff]
  | some s =>
      cases hv : n.vector_id with
      | none =>
          by_cases hss : s = "" <;>
            simp [PyVal.truthy, hss, String.isEmpty_iff]
      | some v =>
          by_cases hss : s = "" <;> by_cases hvv : v = "" <;>
            simp [PyVal.truthy, hss, hvv, String.isEmpty_iff]

theorem prepare_toPyVal (now : String) (n : Note) :
    prepare_metadata now n.toPyVal = .ok (buildMetadataSpec now n) := by
  unfold prepare_metadata
  simp only [kwStep_toPyVal, taskStep_toPyVal, countStep_toPyVal, idStep_toPyVal,
    toPyVal_getD_title, toPyVal_getD_summary, toPyVal_getD_data]
  unfold buildMetadataSpec
  simp [List.append_assoc]

/-! ## Refinement of the ID derivation on schema notes -/

theorem generate_toPyVal (n : Note) :
    generate_unique_id n.toPyVal = .ok (.str (deriveIdSpec n)) := by
  unfold generate_unique_id
  rw [toPyVal_get_vector_id, toPyVal_get_source_id]
  cases hv : n.vector_id with
  | none =>
      cases hs : n.source_id with
      | none => simp [deriveIdSpec, hv, hs, PyVal.truthy, extract_toPyVal]
      | some s =>
          by_cases hss : s = "" <;>
            simp [deriveIdSpec, hv, hs, hss, PyVal.truthy, extract_toPyVal]
  | some v =>
      cases hs : n.source_id with
      | none =>
          by_cases hvv : v = "" <;>
            simp [deriveIdSpec, hv, hs, hvv, PyVal.truthy, extract_toPyVal]
      | some s =>
          by_cases hvv : v = "" <;> by_cases hss : s = "" <;>
            simp [deriveIdSpec, hv, hs, hvv, hss, PyVal.truthy, extract_toPyVal]

/-! ## A non-empty embeddable text is non-blank

Every section starts with a label letter, so a non-empty extract survives
`strip()`; `index_note`'s blank-content test therefore coincides with the
spec's emptiness test on schema notes. -/

/-- The first character exists and is not Python whitespace. -/
def headNonWs (s : String) : Bool :=
  match s.data with
  | c :: _ => !isPySpace c
  | [] => false

theorem headNonWs_append (a b : String) (h : headNonWs a = true) :
    headNonWs (a ++ b) = true := by
  unfold headNonWs at *
  cases hd : a.data with
  | nil => rw [hd] at h; exact absurd h (by simp)
  | cons c l =>
      rw [hd] at h
      rw [String.data_append, hd]
      simpa using h

theorem pyStrip_ne_of_headNonWs (s : String) (h : headNonWs s = true) :
    pyStrip s ≠ "" := by
  unfold headNonWs at h
  cases hd : s.data with
  | nil => rw [hd] at h; exact absurd h (by simp)
  | cons c l =>
      rw [hd] at h
      refine pyStrip_ne_empty s c ?_ ?_
      · rw [hd]; exact List.mem_cons_self c l
      · simpa using h

theorem mem_if_singleton {α : Type} (p : α) (cond : Prop) [Decidable cond]
    (y : α) (hm : p ∈ (if cond then [y] else [])) : p = y := by
  split at hm
  · simpa using hm
  · simp at hm

theorem joinSep_headNonWs (sep : String) :
    ∀ parts : List String, parts ≠ [] →
      (∀ p ∈ parts, headNonWs p = true) →
      headNonWs (joinSep sep parts) = true
  | [], h, _ => absurd rfl h
  | [p], _, hall => by
      rw [joinSep]
      exact hall p (List.mem_cons_self p [])
  | p :: q :: qs, _, hall => by
      rw [joinSep]
      exact headNonWs_append _ _
        (headNonWs_append _ _ (hall p (List.mem_cons_self p _)))

theorem extractSpec_headNonWs (n : Note)
    (h : extractEmbeddableTextSpec n ≠ "") :
    headNonWs (extractEmbeddableTextSpec n) = true := by
  unfold extractEmbeddableTextSpec at *
  apply joinSep_headNonWs
  · intro hnil
    rw [hnil] at h
    exact h rfl
  · intro p hp
    simp only [List.append_assoc, List.mem_append] at hp
    rcases hp with h1 | h2 | h3 | h4 | h5 | h6
    · rw [mem_if_singleton p _ _ h1]
      exact headNonWs_append _ _ (by decide)
    · rw [mem_if_singleton p _ _ h2]
      exact headNonWs_append _ _ (by decide)
    · rw [mem_if_singleton p _ _ h3]
      exact headNonWs_append _ _ (by decide)
    · rw [mem_if_singleton p _ _ h4]
      exact headNonWs_append _ _ (by decide)
    · rw [mem_if_singleton p _ _ h5]
      exact headNonWs_append _ _ (by decide)
    · rw [mem_if_singleton p _ _ h6]
      exact headNonWs_append _ _ (by decide)

theorem extractSpec_strip_ne (n : Note) (h : extractEmbeddableTextSpec n ≠ "") :
    pyStrip (extractEmbeddableTextSpec n) ≠ "" :=
  pyStrip_ne_of_headNonWs _ (extractSpec_headNonWs n h)

/-! ## Collection-store lemmas -/

/-- The number of records carrying a given id. -/
def countId {E : Type} (recs : List (ChromaRecord E)) (id : PyVal) : Nat :=
  (recs.filter (fun r => r.rid = id)).length

theorem countId_chromaAdd_self {E : Type} (recs : List (ChromaRecord E))
    (id : PyVal) (e : E) (m : List (String × PyVal)) (doc : String) :
    countId (chromaAdd recs id e m doc) id = countId recs id + 1 := by
  unfold countId chromaAdd
  rw [List.filter_append]
  simp

theorem filter_chromaUpdate {E : Type} (recs : List (ChromaRecord E))
    (id : PyVal) (e : E) (m : List (String × PyVal)) (doc : String) :
    (chromaUpdate recs id e m doc).filter (fun r => r.rid = id) =
      List.replicate (countId recs id) ⟨id, e, m, doc⟩ := by
  unfold countId chromaUpdate
  induction recs with
  | nil => rfl
  | cons r recs ih =>
      by_cases h : r.rid = id <;>
        simp [List.filter_cons, h, ih, List.replicate_succ]

theorem length_chromaUpdate {E : Type} (recs : List (ChromaRecord E))
    (id : PyVal) (e : E) (m : List (String × PyVal)) (doc : String) :
    (chromaUpdate recs id e m doc).length = recs.length := by
  unfold chromaUpdate
  rw [List.length_map]

theorem chromaGet_eq_nil_iff {E : Type} (recs : List (ChromaRecord E))
    (id : PyVal) : chromaGet recs id = [] ↔ countId recs id = 0 := by
  unfold chromaGet countId
  rw [List.map_eq_nil_iff, List.length_eq_zero]

theorem countId_le_one_of_nodup {E : Type} (recs : List (ChromaRecord E))
    (id : PyVal) (h : (recs.map ChromaRecord.rid).Nodup) :
    countId recs id ≤ 1 := by
  unfold countId
  induction recs with
  | nil => simp
  | cons r recs ih =>
      rw [List.map_cons, List.nodup_cons] at h
      by_cases hr : r.rid = id
      · rw [List.filter_cons_of_pos (by simpa using hr)]
        have hzero : recs.filter (fun r => r.rid = id) = [] := by
          rw [List.filter_eq_nil_iff]
          intro x hx hxx
          have hxid : x.rid = id := by simpa using hxx
          exact h.1 (List.mem_map.mpr ⟨x, hx, by rw [hxid, hr]⟩)
        rw [hzero]
        simp
      · rw [List.filter_cons_of_neg (by simpa using hr)]
        exact ih h.2

/-! ## Formatter-loop lemmas -/

/-- Total character length of the included blocks. -/
def sumLen (ps : List String) : Nat := (ps.map String.length).sum

theorem sumLen_append_singleton (ps : List String) (b : String) :
    sumLen (ps ++ [b]) = sumLen ps + b.length := by
  unfold sumLen
  simp

theorem fmtLoop_sumLen_le (maxC : Nat) : ∀ (rs : List PyVal) (i total : Nat)
    (parts : List String), total = sumLen parts → total ≤ maxC →
    sumLen (fmtLoop maxC rs i total parts) ≤ maxC
  | [], _, total, parts, ht, hle => by
      rw [fmtLoop, ← ht]
      exact hle
  | r :: rest, i, total, parts, ht, hle => by
      rw [fmtLoop]
      cases hb : renderBlock i r with
      | error e => exact fmtLoop_sumLen_le maxC rest (i + 1) total parts ht hle
      | ok b =>
          show sumLen (if total + b.length > maxC then parts
            else fmtLoop maxC rest (i + 1) (total + b.length) (parts ++ [b])) ≤ maxC
          by_cases hc : total + b.length > maxC
          · rw [if_pos hc, ← ht]
            exact hle
          · rw [if_neg hc]
            exact fmtLoop_sumLen_le maxC rest (i + 1) (total + b.length)
              (parts ++ [b])
              (by rw [sumLen_append_singleton, ht])
              (Nat.le_of_not_lt hc)

theorem fmtLoop_blocks (maxC : Nat) : ∀ (rs : List PyVal) (i total : Nat)
    (parts : List String), ∀ p ∈ fmtLoop maxC rs i total parts,
      p ∈ parts ∨ ∃ j r, rs.get? j = some r ∧ renderBlock (i + j) r = .ok p
  | [], _, _, parts, p, hp => by
      rw [fmtLoop] at hp
      exact Or.inl hp
  | r :: rest, i, total, parts, p, hp => by
      rw [fmtLoop] at hp
      cases hb : renderBlock i r with
      | error e =>
          simp only [hb] at hp
          rcases fmtLoop_blocks maxC rest (i + 1) total parts p hp with
            h | ⟨j, r', hj, hr⟩
          · exact Or.inl h
          · refine Or.inr ⟨j + 1, r', by simpa using hj, ?_⟩
            rwa [show i + (j + 1) = i + 1 + j by omega]
      | ok b =>
          simp only [hb] at hp
          by_cases hc : total + b.length > maxC
          · rw [if_pos hc] at hp
            exact Or.inl hp
          · rw [if_neg hc] at hp
            rcases fmtLoop_blocks maxC rest (i + 1) (total + b.length)
                (parts ++ [b]) p hp with h | ⟨j, r', hj, hr⟩
            · rcases List.mem_append.mp h with h | h
              · exact Or.inl h
              · refine Or.inr ⟨0, r, rfl, ?_⟩
                rw [Nat.add_zero, hb]
                simp at h
                rw [h]
            · refine Or.inr ⟨j + 1, r', by simpa using hj, ?_⟩
              rwa [show i + (j + 1) = i + 1 + j by omega]

theorem fmtLoop_skip (maxC : Nat) : ∀ (pre rs : List PyVal) (i total : Nat)
    (parts : List String),
    (∀ j x, pre.get? j = some x → renderBlock (i + j) x = .error ()) →
    fmtLoop maxC (pre ++ rs) i total parts =
      fmtLoop maxC rs (i + pre.length) total parts
  | [], rs, i, total, parts, _ => by simp
  | x :: pre, rs, i, total, parts, herr => by
      rw [List.cons_append, fmtLoop]
      have h0 := herr 0 x rfl
      rw [Nat.add_zero] at h0
      simp only [h0]
      rw [fmtLoop_skip maxC pre rs (i + 1) total parts
        (fun j y hj => by
          have hh := herr (j + 1) y (by simpa using hj)
          rwa [show i + (j + 1) = i + 1 + j by omega] at hh)]
      congr 1
      simp [List.length_cons]
      omega

/-! ## Stepping lemmas for `index_note` -/

theorem indexNoteBody_steps {E S : Type} (env : IndexerEnv E S) (s : S)
    (d : PyVal) (uid : PyVal) (ids : List PyVal) (t : String) (e : E)
    (md : List (String × PyVal))
    (hgen : generate_unique_id d = .ok uid)
    (hget : env.storeGet s uid = .ok ids)
    (hx : extract_content_for_embedding d = .ok t)
    (hts : ¬ pyStrip t = "")
    (he : env.embed t = .ok e)
    (hm : prepare_metadata env.now d = .ok md) :
    indexNoteBody env s d =
      (if ids.isEmpty then env.storeAdd s uid e md t
       else env.storeUpdate s uid e md t).map (fun s2 => (true, s2)) := by
  unfold indexNoteBody
  simp only [hgen, hget, hx, he, hm, except_bind_ok, bind, Except.bind]
  rw [if_neg hts]
  by_cases hi : ids.isEmpty = true <;> simp [hi]

theorem indexNoteBody_blank {E S : Type} (env : IndexerEnv E S) (s : S)
    (d : PyVal) (uid : PyVal) (t : String)
    (hgen : generate_unique_id d = .ok uid)
    (hx : extract_content_for_embedding d = .ok t)
    (hts : pyStrip t = "") :
    indexNoteBody env s d = .ok (false, s) := by
  unfold indexNoteBody
  simp only [hgen, hx, except_bind_ok, bind, Except.bind]
  rw [if_pos hts]
  rfl

theorem index_note_of_body {E S : Type} (env : IndexerEnv E S) (s : S)
    (d : PyVal) (r : Bool × S) (h : indexNoteBody env s d = .ok r) :
    index_note env s d = r := by
  unfold index_note
  rw [h]

theorem index_note_of_body_error {E S : Type} (env : IndexerEnv E S) (s : S)
    (d : PyVal) (h : indexNoteBody env s d = .error ()) :
    index_note env s d = (false, s) := by
  unfold index_note
  rw [h]

/-! ## The claims -/

/-- C7: for every note, `extract_embeddable_text` equals the `" | "`-join of
exactly the non-empty sections in fixed order — title, summary, space-joined
notes (only if some element is non-blank), space-joined reminders, task
descriptions without statuses (skipped when no task has text), and
space-joined keywords — each rendered as label, colon-space, content. -/
theorem C7_embeddable_text_construction (n : Note) :
    extract_content_for_embedding n.toPyVal = .ok (extractEmbeddableTextSpec n) :=
  extract_toPyVal n

/-- C2: `derive_id` returns `vector_id` when present and non-empty, else
`source_id` when present and non-empty, else the SHA-256 hash of the
embeddable text truncated to 16 hex characters; with both hints absent it is
a function of the embeddable text alone. -/
theorem C2_id_derivation_precedence :
    (∀ n : Note, generate_unique_id n.toPyVal = .ok (.str (deriveIdSpec n))) ∧
    (∀ n₁ n₂ : Note, n₁.vector_id = Option.none → n₁.source_id = Option.none →
      n₂.vector_id = Option.none → n₂.source_id = Option.none →
      extract_content_for_embedding n₁.toPyVal =
        extract_content_for_embedding n₂.toPyVal →
      generate_unique_id n₁.toPyVal = generate_unique_id n₂.toPyVal) := by
  constructor
  · exact generate_toPyVal
  · intro n₁ n₂ h1 h2 h3 h4 hx
    rw [generate_toPyVal, generate_toPyVal]
    have hspec : extractEmbeddableTextSpec n₁ = extractEmbeddableTextSpec n₂ := by
      have e1 := extract_toPyVal n₁
      have e2 := extract_toPyVal n₂
      rw [e1, e2] at hx
      exact Except.ok.inj hx
    unfold deriveIdSpec
    rw [h1, h2, h3, h4, hspec]

/-- A pair of schema notes that differ only in their date, with no identity
hints: their embeddable texts coincide, so their derived ids coincide. -/
def demoNoteA : Note :=
  ⟨"Plano", "01/01", "Resumo A", ["kw"], [⟨"Reunião", "done"⟩], ["nota"], [],
   Option.none, Option.none⟩

/-- `demoNoteA` with a different date. -/
def demoNoteB : Note :=
  ⟨"Plano", "02/02", "Resumo A", ["kw"], [⟨"Reunião", "done"⟩], ["nota"], [],
   Option.none, Option.none⟩

theorem C2_id_derivation_precedence_witness :
    demoNoteA.vector_id = Option.none ∧ demoNoteA.source_id = Option.none ∧
    demoNoteB.vector_id = Option.none ∧ demoNoteB.source_id = Option.none ∧
    extract_content_for_embedding demoNoteA.toPyVal =
      extract_content_for_embedding demoNoteB.toPyVal ∧
    generate_unique_id demoNoteA.toPyVal =
      generate_unique_id demoNoteB.toPyVal :=
  ⟨rfl, rfl, rfl, rfl, rfl,
   C2_id_derivation_precedence.2 demoNoteA demoNoteB rfl rfl rfl rfl rfl⟩

/-- C8: `build_metadata` includes the integer keys `total_tasks`,
`done_tasks`, `todo_tasks` iff the tasks list is non-empty (omitted, not
zero-filled, when empty), while `notes_count` and `reminders_count` are
always present integer counts. -/
theorem C8_metadata_field_presence (now : String) (n : Note) :
    ∃ m, prepare_metadata now n.toPyVal = .ok m ∧
      ((m.lookup "total_tasks" ≠ Option.none) ↔ n.tasks ≠ []) ∧
      ((m.lookup "done_tasks" ≠ Option.none) ↔ n.tasks ≠ []) ∧
      ((m.lookup "todo_tasks" ≠ Option.none) ↔ n.tasks ≠ []) ∧
      (n.tasks ≠ [] →
        m.lookup "total_tasks" = some (PyVal.int n.tasks.length) ∧
        m.lookup "done_tasks" =
          some (PyVal.int (n.tasks.filter (fun t => t.status = "done")).length) ∧
        m.lookup "todo_tasks" =
          some (PyVal.int (n.tasks.filter (fun t => t.status = "todo")).length)) ∧
      m.lookup "notes_count" = some (PyVal.int n.notes.length) ∧
      m.lookup "reminders_count" = some (PyVal.int n.reminders.length) := by
  refine ⟨buildMetadataSpec now n, prepare_toPyVal now n, ?_⟩
  unfold buildMetadataSpec
  rcases n.source_id with _ | s0 <;> rcases n.vector_id with _ | v0 <;>
    split_ifs <;> simp_all [List.lookup]

theorem C8_metadata_field_presence_witness :
    ∃ m, prepare_metadata "T0" demoNoteA.toPyVal = .ok m ∧
      ((m.lookup "total_tasks" ≠ Option.none) ↔ demoNoteA.tasks ≠ []) ∧
      ((m.lookup "done_tasks" ≠ Option.none) ↔ demoNoteA.tasks ≠ []) ∧
      ((m.lookup "todo_tasks" ≠ Option.none) ↔ demoNoteA.tasks ≠ []) ∧
      (demoNoteA.tasks ≠ [] →
        m.lookup "total_tasks" = some (PyVal.int demoNoteA.tasks.length) ∧
        m.lookup "done_tasks" =
          some (PyVal.int
            (demoNoteA.tasks.filter (fun t => t.status = "done")).length) ∧
        m.lookup "todo_tasks" =
          some (PyVal.int
            (demoNoteA.tasks.filter (fun t => t.status = "todo")).length)) ∧
      m.lookup "notes_count" = some (PyVal.int demoNoteA.notes.length) ∧
      m.lookup "reminders_count" =
        some (PyVal.int demoNoteA.reminders.length) :=
  C8_metadata_field_presence "T0" demoNoteA

/-- C4: a note whose title, summary, notes, reminders, tasks and keywords are
all empty yields an empty embeddable text, and `index_note` returns `false`
without touching the store — for every environment, including failing ones. -/
theorem C4_empty_content_rejection {E S : Type} (env : IndexerEnv E S) (s : S)
    (n : Note) (h1 : n.title = "") (h2 : n.summary = "") (h3 : n.notes = [])
    (h4 : n.reminders = []) (h5 : n.tasks = []) (h6 : n.keywords = []) :
    extract_content_for_embedding n.toPyVal = .ok "" ∧
    index_note env s n.toPyVal = (false, s) := by
  have hx : extract_content_for_embedding n.toPyVal = .ok "" := by
    rw [extract_toPyVal]
    unfold extractEmbeddableTextSpec
    rw [h1, h2, h3, h4, h5, h6]
    rfl
  refine ⟨hx, ?_⟩
  exact index_note_of_body env s n.toPyVal (false, s)
    (indexNoteBody_blank env s n.toPyVal _ "" (generate_toPyVal n) hx rfl)

/-- The all-empty note. -/
def emptyNote : Note := ⟨"", "", "", [], [], [], [], Option.none, Option.none⟩

theorem C4_empty_content_rejection_witness :
    emptyNote.title = "" ∧ emptyNote.summary = "" ∧ emptyNote.notes = [] ∧
    emptyNote.reminders = [] ∧ emptyNote.tasks = [] ∧ emptyNote.keywords = [] ∧
    (extract_content_for_embedding emptyNote.toPyVal = .ok "" ∧
     index_note (chromaEnv (fun _ => .ok (0 : Nat)) "T0") [] emptyNote.toPyVal =
       (false, [])) :=
  ⟨rfl, rfl, rfl, rfl, rfl, rfl,
   C4_empty_content_rejection (chromaEnv (fun _ => .ok (0 : Nat)) "T0") []
     emptyNote rfl rfl rfl rfl rfl rfl⟩

/-- C1: for every schema note with non-empty embeddable text, and any
well-behaved collection with distinct ids, two successive `index_note` calls
both return `true`; the second call takes the update path (the store's size
does not change), and afterwards exactly one record carries
`derive_id(n)` — with the embedding, metadata (timestamped by the second
call) and document reflecting the note's content. -/
theorem C1_idempotent_upsert {E : Type} (embedf : String → Except Unit E)
    (now1 now2 : String) (s0 : List (ChromaRecord E)) (n : Note) (t : String)
    (e : E)
    (hx : extract_content_for_embedding n.toPyVal = .ok t)
    (hne : t ≠ "")
    (he : embedf t = .ok e)
    (hu : (s0.map ChromaRecord.rid).Nodup) :
    (index_note (chromaEnv embedf now1) s0 n.toPyVal).1 = true ∧
    (index_note (chromaEnv embedf now2)
      (index_note (chromaEnv embedf now1) s0 n.toPyVal).2 n.toPyVal).1 = true ∧
    (index_note (chromaEnv embedf now2)
      (index_note (chromaEnv embedf now1) s0 n.toPyVal).2 n.toPyVal).2.length =
      (index_note (chromaEnv embedf now1) s0 n.toPyVal).2.length ∧
    countId (index_note (chromaEnv embedf now2)
      (index_note (chromaEnv embedf now1) s0 n.toPyVal).2 n.toPyVal).2
      (.str (deriveIdSpec n)) = 1 ∧
    ((index_note (chromaEnv embedf now2)
      (index_note (chromaEnv embedf now1) s0 n.toPyVal).2 n.toPyVal).2.filter
      (fun r => r.rid = .str (deriveIdSpec n))) =
      [⟨.str (deriveIdSpec n), e, buildMetadataSpec now2 n, t⟩] := by
  have hts : ¬ pyStrip t = "" := by
    have hs := extract_toPyVal n
    rw [hx] at hs
    have ht : t = extractEmbeddableTextSpec n := Except.ok.inj hs
    rw [ht]
    exact extractSpec_strip_ne n (ht ▸ hne)
  have hgen := generate_toPyVal n
  set uid : PyVal := .str (deriveIdSpec n) with huid
  set md1 := buildMetadataSpec now1 n with hmd1
  set md2 := buildMetadataSpec now2 n with hmd2
  set s1 : List (ChromaRecord E) :=
    if (chromaGet s0 uid).isEmpty then chromaAdd s0 uid e md1 t
    else chromaUpdate s0 uid e md1 t with hs1
  have h1 : index_note (chromaEnv embedf now1) s0 n.toPyVal = (true, s1) := by
    apply index_note_of_body
    rw [indexNoteBody_steps (chromaEnv embedf now1) s0 n.toPyVal uid
      (chromaGet s0 uid) t e md1 hgen rfl hx hts he (prepare_toPyVal now1 n)]
    rw [hs1]
    by_cases hc : (chromaGet s0 uid).isEmpty = true <;>
      simp [chromaEnv, hc, Except.map]
  have hcount1 : countId s1 uid = 1 := by
    rw [hs1]
    by_cases hc : (chromaGet s0 uid).isEmpty = true
    · have h0 : countId s0 uid = 0 :=
        (chromaGet_eq_nil_iff s0 uid).mp (List.isEmpty_iff.mp hc)
      rw [if_pos hc, countId_chromaAdd_self, h0]
    · have hpos : countId s0 uid ≠ 0 := by
        intro h0
        exact hc (by
          rw [List.isEmpty_iff]
          exact (chromaGet_eq_nil_iff s0 uid).mpr h0)
      have hle := countId_le_one_of_nodup s0 uid hu
      have h1' : countId s0 uid = 1 := by omega
      rw [if_neg hc]
      unfold countId
      rw [filter_chromaUpdate, h1']
      rfl
  have hget2 : (chromaGet s1 uid).isEmpty = false := by
    have : ¬ chromaGet s1 uid = [] := by
      intro h0
      have := (chromaGet_eq_nil_iff s1 uid).mp h0
      omega
    cases hh : (chromaGet s1 uid).isEmpty
    · rfl
    · exact absurd (List.isEmpty_iff.mp hh) this
  have h2 : index_note (chromaEnv embedf now2) s1 n.toPyVal =
      (true, chromaUpdate s1 uid e md2 t) := by
    apply index_note_of_body
    rw [indexNoteBody_steps (chromaEnv embedf now2) s1 n.toPyVal uid
      (chromaGet s1 uid) t e md2 hgen rfl hx hts he (prepare_toPyVal now2 n)]
    rw [if_neg (by simp [hget2])]
    simp [chromaEnv, Except.map]
  rw [h1]
  rw [h2]
  refine ⟨rfl, rfl, length_chromaUpdate s1 uid e md2 t, ?_, ?_⟩
  · unfold countId
    rw [filter_chromaUpdate, hcount1]
    rfl
  · rw [filter_chromaUpdate, hcount1]
    rfl

/-- The embeddable text of `demoNoteA`. -/
def demoText : String :=
  "Título: Plano | Resumo: Resumo A | Notas: nota | Tarefas: Reunião | Palavras-chave: kw"

theorem C1_idempotent_upsert_witness :
    (extract_content_for_embedding demoNoteA.toPyVal = .ok demoText) ∧
    demoText ≠ "" ∧
    ((fun s => Except.ok s.length : String → Except Unit Nat) demoText =
      .ok demoText.length) ∧
    (([] : List (ChromaRecord Nat)).map ChromaRecord.rid).Nodup ∧
    ((index_note (chromaEnv (fun s => Except.ok s.length) "T1") []
        demoNoteA.toPyVal).1 = true ∧
     (index_note (chromaEnv (fun s => Except.ok s.length) "T2")
       (index_note (chromaEnv (fun s => Except.ok s.length) "T1") []
         demoNoteA.toPyVal).2 demoNoteA.toPyVal).1 = true ∧
     (index_note (chromaEnv (fun s => Except.ok s.length) "T2")
       (index_note (chromaEnv (fun s => Except.ok s.length) "T1") []
         demoNoteA.toPyVal).2 demoNoteA.toPyVal).2.length =
       (index_note (chromaEnv (fun s => Except.ok s.length) "T1") []
         demoNoteA.toPyVal).2.length ∧
     countId (index_note (chromaEnv (fun s => Except.ok s.length) "T2")
       (index_note (chromaEnv (fun s => Except.ok s.length) "T1") []
         demoNoteA.toPyVal).2 demoNoteA.toPyVal).2
       (.str (deriveIdSpec demoNoteA)) = 1 ∧
     ((index_note (chromaEnv (fun s => Except.ok s.length) "T2")
       (index_note (chromaEnv (fun s => Except.ok s.length) "T1") []
         demoNoteA.toPyVal).2 demoNoteA.toPyVal).2.filter
       (fun r => r.rid = .str (deriveIdSpec demoNoteA))) =
       [⟨.str (deriveIdSpec demoNoteA), demoText.length,
         buildMetadataSpec "T2" demoNoteA, demoText⟩]) :=
  ⟨rfl, by decide, rfl, by simp,
   C1_idempotent_upsert (fun s => Except.ok s.length) "T1" "T2" [] demoNoteA
     demoText demoText.length rfl (by decide) rfl (by simp)⟩

/-- C3: no public operation lets a collaborator failure escape: whenever the
try-body of `index_note` raises, the call returns `false` with the store
untouched; whenever the `search_similar_notes` body raises, the call returns
`[]`; whenever the store count fails, `get_collection_stats` returns the
`error` mapping — for every environment, store state and input. -/
theorem C3_non_exceptional_failure_values {E S : Type} (env : IndexerEnv E S) :
    (∀ (s : S) (d : PyVal), indexNoteBody env s d = .error () →
      index_note env s d = (false, s)) ∧
    (∀ (s : S) (q : String) (k : Nat), searchBody env s q k = .error () →
      search_similar_notes env s q k = []) ∧
    (∀ (s : S) (msg : String), env.storeCount s = .error msg →
      get_collection_stats env s = [("error", PyVal.str msg)]) := by
  refine ⟨?_, ?_, ?_⟩
  · intro s d h
    exact index_note_of_body_error env s d h
  · intro s q k h
    unfold search_similar_notes
    rw [h]
  · intro s msg h
    unfold get_collection_stats
    rw [h]

/-- An environment in which every collaborator call fails. -/
def failEnv : IndexerEnv Nat (List (ChromaRecord Nat)) where
  embed := fun _ => .error ()
  now := "T0"
  storeGet := fun _ _ => .error ()
  storeAdd := fun _ _ _ _ _ => .error ()
  storeUpdate := fun _ _ _ _ _ => .error ()
  storeQuery := fun _ _ _ => .error ()
  storeCount := fun _ => .error "store unavailable"
  collection_name := "handwritten_notes"
  persist_directory := "./chroma_db"

/-- A note carrying a `vector_id` hint and a title. -/
def hintedNote : Note :=
  ⟨"x", "", "", [], [], [], [], Option.none, some "v1"⟩

theorem C3_non_exceptional_failure_values_witness :
    indexNoteBody failEnv [] hintedNote.toPyVal = .error () ∧
    index_note failEnv [] hintedNote.toPyVal = (false, []) ∧
    searchBody failEnv [] "q" 5 = .error () ∧
    search_similar_notes failEnv [] "q" 5 = [] ∧
    failEnv.storeCount [] = .error "store unavailable" ∧
    get_collection_stats failEnv [] =
      [("error", PyVal.str "store unavailable")] :=
  ⟨rfl,
   (C3_non_exceptional_failure_values failEnv).1 [] hintedNote.toPyVal rfl,
   rfl,
   (C3_non_exceptional_failure_values failEnv).2.1 [] "q" 5 rfl,
   rfl,
   (C3_non_exceptional_failure_values failEnv).2.2 [] "store unavailable" rfl⟩

/-- C9 counterexample: a note whose `tasks` field is a non-list (`5`) makes
`build_metadata` raise a `TypeError` at `len(tasks)` — the normalizer is not
uniformly defensive — while `extract_embeddable_text` still succeeds. -/
def malformedNote : PyVal := .dict [("title", .str "x"), ("tasks", .int 5)]

theorem C9_malformed_note_counterexample :
    prepare_metadata "T0" malformedNote = .error () ∧
    extract_content_for_embedding malformedNote = .ok "Título: x" :=
  ⟨rfl, rfl⟩

/-- C9 (amended): `extract_embeddable_text` is defensive — a note whose
`notes`, `reminders`, `tasks` and `keywords` fields are present but not lists
is treated as if those fields were empty, without raising, so the text is
built from title and summary alone; `build_metadata`, however, raises on a
truthy non-list `tasks` or `keywords` value. -/
theorem C9_malformed_note_coercion (d : PyVal)
    (h1 : (d.get "notes").isList = false)
    (h2 : (d.get "reminders").isList = false)
    (h3 : (d.get "tasks").isList = false)
    (h4 : (d.get "keywords").isList = false) :
    extract_content_for_embedding d =
      .ok (joinSep " | " (titleSection d ++ summarySection d)) := by
  have hn : notesSection d = .ok [] := by
    unfold notesSection
    rw [if_neg (by simp [h1])]
  have hr : remindersSection d = .ok [] := by
    unfold remindersSection
    rw [if_neg (by simp [h2])]
  have ht : tasksSection d = .ok [] := by
    unfold tasksSection
    rw [if_neg (by simp [h3])]
  have hk : keywordsSection d = .ok [] := by
    unfold keywordsSection
    rw [if_neg (by simp [h4])]
  unfold extract_content_for_embedding
  simp only [hn, hr, ht, hk, except_bind_ok, bind, Except.bind]
  simp [except_pure]

/-- A note in which all four list fields are present with non-list values. -/
def malformedNote2 : PyVal :=
  .dict [("title", .str "x"), ("summary", .str "s"), ("notes", .str "zz"),
         ("reminders", .int 1), ("tasks", .int 5), ("keywords", .dict [])]

theorem C9_malformed_note_coercion_witness :
    (malformedNote2.get "notes").isList = false ∧
    (malformedNote2.get "reminders").isList = false ∧
    (malformedNote2.get "tasks").isList = false ∧
    (malformedNote2.get "keywords").isList = false ∧
    extract_content_for_embedding malformedNote2 =
      .ok (joinSep " | " (titleSection malformedNote2 ++
                          summarySection malformedNote2)) :=
  ⟨rfl, rfl, rfl, rfl,
   C9_malformed_note_coercion malformedNote2 rfl rfl rfl rfl⟩

theorem foldl_append_length (acc : String) :
    ∀ ps : List String, (ps.foldl (fun r s => r ++ s) acc).length =
      acc.length + sumLen ps
  | [] => by simp [sumLen]
  | p :: ps => by
      rw [List.foldl_cons, foldl_append_length (acc ++ p) ps,
        String.length_append]
      unfold sumLen
      simp
      omega

theorem length_string_join (ps : List String) :
    (String.join ps).length = sumLen ps := by
  unfold String.join
  rw [foldl_append_length "" ps]
  simp

/-- C5: for every result list and budget, the included blocks of
`format_for_rag` total at most `max_tokens * 4` characters; on the normal
path the output is the fixed header, the count of the blocks actually
included, the whole blocks in order, and the fixed footer — never a partial
block. -/
theorem C5_bounded_context (results : List PyVal) (max_tokens : Nat)
    (hne : results ≠ [])
    (hp : fmtLoop (max_tokens * 4) results 1 0 [] ≠ []) :
    format_for_rag results max_tokens =
      "=== CONTEXTO DAS SUAS ANOTAÇÕES ===\n" ++
      "Total de notas relevantes: " ++
      toString (fmtLoop (max_tokens * 4) results 1 0 []).length ++ "\n" ++
      String.join (fmtLoop (max_tokens * 4) results 1 0 []) ++
      "\n=== FIM DO CONTEXTO ===" ∧
    (String.join (fmtLoop (max_tokens * 4) results 1 0 [])).length ≤
      max_tokens * 4 ∧
    (∀ p ∈ fmtLoop (max_tokens * 4) results 1 0 [],
      ∃ j r, results.get? j = some r ∧ renderBlock (1 + j) r = .ok p) := by
  refine ⟨?_, ?_, ?_⟩
  · unfold format_for_rag
    rw [if_neg (by simp [hne]), if_neg (by simp [hp])]
  · rw [length_string_join]
    exact fmtLoop_sumLen_le (max_tokens * 4) results 1 0 [] rfl
      (Nat.zero_le _)
  · intro p hp2
    rcases fmtLoop_blocks (max_tokens * 4) results 1 0 [] p hp2 with h | h
    · exact absurd h (by simp)
    · exact h

/-- A one-element result list whose block fits a 1500-token budget. -/
def demoResults : List PyVal := [.dict [("similarity", PyVal.rat (mkRat 89 100))]]

theorem C5_bounded_context_witness :
    demoResults ≠ [] ∧ fmtLoop (1500 * 4) demoResults 1 0 [] ≠ [] ∧
    (format_for_rag demoResults 1500 =
      "=== CONTEXTO DAS SUAS ANOTAÇÕES ===\n" ++
      "Total de notas relevantes: " ++
      toString (fmtLoop (1500 * 4) demoResults 1 0 []).length ++ "\n" ++
      String.join (fmtLoop (1500 * 4) demoResults 1 0 []) ++
      "\n=== FIM DO CONTEXTO ===" ∧
    (String.join (fmtLoop (1500 * 4) demoResults 1 0 [])).length ≤ 1500 * 4 ∧
    (∀ p ∈ fmtLoop (1500 * 4) demoResults 1 0 [],
      ∃ j r, demoResults.get? j = some r ∧ renderBlock (1 + j) r = .ok p)) :=
  ⟨by decide, by decide,
   C5_bounded_context demoResults 1500 (by decide) (by decide)⟩

/-- C10: when every result before the first renderable one raises and that
first renderable block alone exceeds the `max_tokens * 4` budget, no block is
included and `format_for_rag` returns the distinct processing-error sentinel,
not the empty-results sentinel and not an empty header/footer context. -/
theorem C10_zero_fit_fallback (pre post : List PyVal) (r : PyVal) (b : String)
    (max_tokens : Nat)
    (herr : ∀ j x, pre.get? j = some x → renderBlock (1 + j) x = .error ())
    (hr : renderBlock (1 + pre.length) r = .ok b)
    (hbig : b.length > max_tokens * 4) :
    format_for_rag (pre ++ r :: post) max_tokens =
      "Erro ao processar as notas encontradas." := by
  unfold format_for_rag
  rw [if_neg (by simp : ¬ (pre ++ r :: post).isEmpty = true)]
  have hl : fmtLoop (max_tokens * 4) (pre ++ r :: post) 1 0 [] = [] := by
    rw [fmtLoop_skip (max_tokens * 4) pre (r :: post) 1 0 [] herr]
    rw [fmtLoop]
    simp only [hr]
    rw [if_pos (by omega : 0 + b.length > max_tokens * 4)]
  rw [hl]
  rfl

/-- A result whose rendered block exceeds a 1-token budget. -/
def demoBigResult : PyVal := .dict [("similarity", PyVal.int 1)]

theorem C10_zero_fit_fallback_witness :
    renderBlock (1 + ([] : List PyVal).length) demoBigResult =
      .ok "\n--- NOTA 1 ---\nTítulo: Sem título\nRelevância: 1.00\n" ∧
    ("\n--- NOTA 1 ---\nTítulo: Sem título\nRelevância: 1.00\n").length >
      1 * 4 ∧
    format_for_rag ([] ++ demoBigResult :: []) 1 =
      "Erro ao processar as notas encontradas." :=
  ⟨rfl, by decide,
   C10_zero_fit_fallback [] [] demoBigResult
     "\n--- NOTA 1 ---\nTítulo: Sem título\nRelevância: 1.00\n" 1
     (fun j x hj => by simp at hj) rfl (by decide)⟩

/-! ## The search loop, pointwise -/

theorem searchLoop_spec (res : QueryResponse) : ∀ (ids : List PyVal) (i : Nat),
    (∀ j, j < ids.length → (res.documents.get? (i + j)).isSome ∧
      (res.metadatas.get? (i + j)).isSome ∧ (res.distances.get? (i + j)).isSome) →
    ∃ out, searchLoop res i ids = .ok out ∧ out.length = ids.length ∧
      ∀ j idv docv mdv dist, ids.get? j = some idv →
        res.documents.get? (i + j) = some docv →
        res.metadatas.get? (i + j) = some mdv →
        res.distances.get? (i + j) = some dist →
        out.get? j = some (.dict [("id", idv), ("document", docv),
          ("metadata", mdv), ("similarity", .rat (1 - dist))])
  | [], i, _ => ⟨[], rfl, rfl, by
      intro j idv docv mdv dist h
      simp at h⟩
  | idv0 :: rest, i, h => by
      obtain ⟨hd, hm, hx⟩ := h 0 (by simp)
      rw [Nat.add_zero] at hd hm hx
      obtain ⟨docv0, hdv⟩ := Option.isSome_iff_exists.mp hd
      obtain ⟨mdv0, hmv⟩ := Option.isSome_iff_exists.mp hm
      obtain ⟨dist0, hxv⟩ := Option.isSome_iff_exists.mp hx
      obtain ⟨tail, htl, htlen, hts⟩ := searchLoop_spec res rest (i + 1)
        (fun j hj => by
          have hh := h (j + 1) (by simpa using hj)
          rwa [show i + (j + 1) = i + 1 + j by omega] at hh)
      refine ⟨.dict [("id", idv0), ("document", docv0), ("metadata", mdv0),
        ("similarity", .rat (1 - dist0))] :: tail, ?_, by simp [htlen], ?_⟩
      · rw [searchLoop, hdv, hmv, hxv, htl]
      · intro j idv docv mdv dist hji hjd hjm hjx
        cases j with
        | zero =>
            rw [Nat.add_zero] at hjd hjm hjx
            rw [hdv] at hjd
            rw [hmv] at hjm
            rw [hxv] at hjx
            simp only [List.get?] at hji ⊢
            rw [← Option.some.inj hji, ← Option.some.inj hjd,
              ← Option.some.inj hjm, ← Option.some.inj hjx]
        | succ j =>
            simp only [List.get?] at hji ⊢
            refine hts j idv docv mdv dist hji ?_ ?_ ?_ <;>
              rw [show i + 1 + j = i + (j + 1) by omega]
            · exact hjd
            · exact hjm
            · exact hjx

/-- C6 (amended): every result of `search_similar_notes` carries
`similarity = 1 - distance` exactly as reported by the store; since a cosine
distance lies in `[0, 2]`, the similarity lies in `[-1, 1]` — not `[0, 1]` —
and equals `1` exactly when the distance is `0` (identical match). -/
theorem C6_similarity_formula_amended {E S : Type} (env : IndexerEnv E S)
    (s : S) (q : String) (k : Nat) (qe : E) (res : QueryResponse)
    (hE : env.embed q = .ok qe)
    (hQ : env.storeQuery s qe k = .ok res)
    (hlen : ∀ j, j < res.ids.length → (res.documents.get? j).isSome ∧
      (res.metadatas.get? j).isSome ∧ (res.distances.get? j).isSome) :
    (search_similar_notes env s q k).length = res.ids.length ∧
    ∀ j idv docv mdv dist, res.ids.get? j = some idv →
      res.documents.get? j = some docv →
      res.metadatas.get? j = some mdv →
      res.distances.get? j = some dist →
      (search_similar_notes env s q k).get? j =
        some (.dict [("id", idv), ("document", docv), ("metadata", mdv),
                     ("similarity", .rat (1 - dist))]) ∧
      (0 ≤ dist → dist ≤ 2 → -1 ≤ 1 - dist ∧ 1 - dist ≤ 1) ∧
      (1 - dist = 1 ↔ dist = 0) := by
  obtain ⟨out, hloop, hlen2, hspec⟩ := searchLoop_spec res res.ids 0
    (fun j hj => by simpa using hlen j hj)
  have hsearch : search_similar_notes env s q k = out := by
    unfold search_similar_notes searchBody
    simp only [hE, hQ, except_bind_ok, bind, Except.bind, hloop]
  rw [hsearch]
  refine ⟨hlen2, ?_⟩
  intro j idv docv mdv dist hji hjd hjm hjx
  refine ⟨hspec j idv docv mdv dist hji (by simpa using hjd)
    (by simpa using hjm) (by simpa using hjx), ?_, ?_⟩
  · intro h0 h2
    constructor <;> linarith
  · constructor
    · intro h
      linarith
    · intro h
      rw [h]
      norm_num

/-- A store response whose single distance is `2` — the extreme of the cosine
range. -/
def demoResponse : QueryResponse :=
  ⟨[.str "a"], [.str "doc"], [.dict []], [2]⟩

/-- An environment whose store reports `demoResponse` for every query. -/
def envC6 : IndexerEnv Nat (List (ChromaRecord Nat)) where
  embed := fun _ => .ok 0
  now := "T0"
  storeGet := fun _ _ => .error ()
  storeAdd := fun _ _ _ _ _ => .error ()
  storeUpdate := fun _ _ _ _ _ => .error ()
  storeQuery := fun _ _ _ => .ok demoResponse
  storeCount := fun _ => .error "x"
  collection_name := "handwritten_notes"
  persist_directory := "./chroma_db"

/-- C6 counterexample: with the store reporting cosine distance `2`, the
returned similarity is `1 - 2 = -1`, which is not in `[0, 1]`. -/
theorem C6_similarity_range_counterexample :
    search_similar_notes envC6 [] "q" 1 =
      [.dict [("id", .str "a"), ("document", .str "doc"),
              ("metadata", .dict []), ("similarity", .rat (1 - 2))]] ∧
    (1 : Rat) - 2 < 0 :=
  ⟨rfl, by norm_num⟩

theorem C6_similarity_formula_amended_witness :
    envC6.embed "q" = .ok 0 ∧
    envC6.storeQuery [] 0 1 = .ok demoResponse ∧
    ((search_similar_notes envC6 [] "q" 1).length = demoResponse.ids.length ∧
     ∀ j idv docv mdv dist, demoResponse.ids.get? j = some idv →
       demoResponse.documents.get? j = some docv →
       demoResponse.metadatas.get? j = some mdv →
       demoResponse.distances.get? j = some dist →
       (search_similar_notes envC6 [] "q" 1).get? j =
         some (.dict [("id", idv), ("document", docv), ("metadata", mdv),
                      ("similarity", .rat (1 - dist))]) ∧
       (0 ≤ dist → dist ≤ 2 → -1 ≤ 1 - dist ∧ 1 - dist ≤ 1) ∧
       (1 - dist = 1 ↔ dist = 0)) :=
  ⟨rfl, rfl,
   C6_similarity_formula_amended envC6 [] "q" 1 0 demoResponse rfl rfl
     (by
       intro j hj
       have hj0 : j = 0 := by
         simp [demoResponse] at hj
         omega
       subst hj0
       exact ⟨rfl, rfl, rfl⟩)⟩
